import Mathlib

/-!
# Verification of the module-invocation CLI scripts

Shallow embedding of the two scripts of this repository,
`src/run_wasm.js` and `src/unnamed/part_000`, and proofs of the claims
about them.  Both scripts read a compiled module from a path taken from
the command line, instantiate it through the host's module facility,
select an exported function by an ordered candidate list, coerce the
remaining command-line tokens with `parseInt(·, 10)`, call the export and
print `Result: <value>`.

The host facilities (file system, module instantiation) are external
collaborators and are modelled as fields of a `Host` record; the
JavaScript facets the scripts rely on (identifier resolution,
`parseInt`, `||`, truthiness, `console.log` formatting, and the
grammatical fact that two adjacent plain identifiers on one line do not
parse) are modelled explicitly below, each next to the line of source
that uses it.
-/

set_option autoImplicit false

namespace ParadimeInvoker

/-- A JavaScript number as produced by `parseInt(s, 10)`: either `NaN` or an
integer value.  (`parseInt` with radix 10 returns an integer or `NaN`;
float rounding of astronomically long digit strings is out of scope.) -/
inductive JsNum where
  | nan : JsNum
  | int : Int → JsNum
deriving DecidableEq, Repr

/-- Decimal digit test, as used by `parseInt`'s radix-10 digit scan. -/
def jsDigit (c : Char) : Bool := 48 ≤ c.toNat && c.toNat ≤ 57

/-- The whitespace characters `parseInt` skips (the subset relevant to
command-line tokens). -/
def jsWs (c : Char) : Bool := c == ' ' || c == '\t' || c == '\n' || c == '\r'

/-- Numeric value of a list of decimal digit characters. -/
def digitsVal (ds : List Char) : Nat :=
  ds.foldl (fun acc c => 10 * acc + (c.toNat - 48)) 0

/-- The `parseInt` body after sign handling: take the longest prefix of decimal
digits; an empty prefix yields `NaN`. -/
def parseUnsigned (cs : List Char) : JsNum :=
  match cs.takeWhile jsDigit with
  | [] => .nan
  | ds => .int (digitsVal ds)

/-- The `parseInt` body after whitespace skipping: an optional single sign,
then the digit scan. -/
def parseIntCore (cs : List Char) : JsNum :=
  match cs with
  | [] => .nan
  | c :: rest =>
    if c == '-' then
      match parseUnsigned rest with
      | .int n => .int (-n)
      | r => r
    else if c == '+' then parseUnsigned rest
    else parseUnsigned (c :: rest)

/-- The call `parseInt(s, 10)` as ECMA-262 defines it for radix 10: skip leading
whitespace, read an optional sign, then the longest prefix of decimal
digits; no digits means `NaN`, and any trailing garbage is ignored. -/
def jsParseInt10 (s : String) : JsNum :=
  parseIntCore (s.toList.dropWhile jsWs)

/-- Decimal digit characters of `n` (fuel-indexed so that the recursion is
structural; fuel `n + 1` always suffices). -/
def natDigitChars : Nat → Nat → List Char
  | 0, _ => []
  | _ + 1, 0 => []
  | fuel + 1, n => natDigitChars fuel (n / 10) ++ [Char.ofNat (48 + n % 10)]

/-- Decimal string of a natural number. -/
def natToString (n : Nat) : String :=
  if n = 0 then "0" else String.mk (natDigitChars (n + 1) n)

/-- How JavaScript stringifies the numbers our model produces: `NaN` prints
as `NaN`, integer values in decimal. -/
def jsNumToString : JsNum → String
  | .nan => "NaN"
  | .int n => if n < 0 then "-" ++ natToString n.natAbs else natToString n.natAbs

/-- The single line `console.log('Result:', res)` prints: the two arguments
joined by one space. -/
def resultLine (v : JsNum) : String := "Result: " ++ jsNumToString v

/-! ## Modules, exports and calls -/

/-- Raw module file contents (`fs.readFileSync`'s buffer), kept abstract as a
byte list. -/
abbrev Bytes := List Nat

/-- What a call across the execution boundary can do: return a value, or
raise/trap (e.g. an arity or type mismatch enforced by the boundary). -/
inductive CallOutcome where
  | value : JsNum → CallOutcome
  | trap : String → CallOutcome
deriving DecidableEq, Repr

/-- A named export of an instantiated module: a callable taking the
positional arguments it is invoked with. -/
abbrev Callable := List JsNum → CallOutcome

/-- The export table of an instantiated module: a mapping from name to
callable (`instance.exports`).  Exported callables are objects, hence
truthy as JavaScript values. -/
abbrev Exports := List (String × Callable)

/-- Property access `instance.exports.<n>`: the callable bound to `n`, or
`undefined` (here `none`) when no export has that name. -/
def getExport (e : Exports) (n : String) : Option Callable :=
  (e.find? (fun p => p.1 == n)).map (fun p => p.2)

/-- JavaScript `a || b` on export lookups: a present export is a truthy
object, so `||` yields the left operand when present, else the right. -/
def jsOr (a b : Option Callable) : Option Callable :=
  match a with
  | some f => some f
  | none => b

/-- Line 10 of `src/run_wasm.js`:
`const fn = instance.exports.main || instance.exports.id;` -/
def runWasmSelectFn (e : Exports) : Option Callable :=
  jsOr (getExport e "main") (getExport e "id")

/-- Line 7 of `src/unnamed/part_000` (right-hand side of the mistyped
declaration):
`instance.exports.main || instance.exports.id || instance.exports.add;`
(`||` is left-associative). -/
def p0SelectFn (e : Exports) : Option Callable :=
  jsOr (jsOr (getExport e "main") (getExport e "id")) (getExport e "add")

/-- Modelled from the spec's words (§4.1, step "discover export"): "select
the first name in the configured preference list that is present".  Stated
here only to be compared with the source's `||` chains. -/
def firstPresent (e : Exports) : List String → Option Callable
  | [] => none
  | n :: ns =>
    match getExport e n with
    | some f => some f
    | none => firstPresent e ns

/-- Line 9 of `src/unnamed/part_000`:
`const args = argStrs.map(n => parseInt(n, 10));` -/
def p0CoerceArgs (argStrs : List String) : List JsNum :=
  argStrs.map jsParseInt10

/-- Line 7 of `src/run_wasm.js`:
`const arg = argStr ? parseInt(argStr, 10) : undefined;` — a missing or
empty `argStr` is falsy and leaves `arg` undefined (`none`). -/
def rwCoerceArg (argStr : Option String) : Option JsNum :=
  match argStr with
  | some s => if s == "" then none else some (jsParseInt10 s)
  | none => none

/-! ## Token-level transcription of the two source files

Each non-comment line is transcribed token by token (identifiers and
keywords as `ident`, string literals as `str`, number literals as `num`,
punctuation and operators as `punct`), so that the grammatical and
name-binding facts the claims rest on can be stated against the literal
source text. -/

/-- A JavaScript token of the fragment these scripts use. -/
inductive Tok where
  | ident : String → Tok
  | str : String → Tok
  | num : Nat → Tok
  | punct : String → Tok
deriving DecidableEq, Repr

/-- Reserved words and contextual keywords of JavaScript after which an
identifier may directly follow on the same line (`const x`, `new Error`,
`await f`, ...). -/
def jsHeadKeywords : List String :=
  ["const", "let", "var", "function", "return", "if", "else", "throw",
   "new", "await", "async", "typeof", "void", "delete", "do", "while",
   "for", "case", "switch", "yield", "class", "extends", "default",
   "in", "of", "instanceof", "break", "continue", "try", "catch",
   "finally", "get", "set", "static"]

/-- Keyword operators that may directly follow an identifier
(`a in b`, `a instanceof B`, `for (x of xs)`). -/
def jsTailKeywords : List String := ["in", "of", "instanceof"]

/-- Whether the adjacent identifier pair `a b` is grammatical JavaScript. -/
def identPairOk (a b : String) : Bool :=
  jsHeadKeywords.contains a || jsTailKeywords.contains b

/-- Two plain identifiers directly adjacent on one line, the first not a
keyword and the second not a keyword operator, cannot be produced by the
JavaScript grammar (and automatic semicolon insertion never applies within
a line), so a line containing such a pair is a SyntaxError. -/
def lineViolation : List Tok → Bool
  | .ident a :: .ident b :: rest =>
    !identPairOk a b || lineViolation (.ident b :: rest)
  | _ :: rest => lineViolation rest
  | [] => false

/-- A file fails to parse when some line has an adjacent-identifier
violation; Node then raises a SyntaxError at load time and executes
nothing. -/
def fileViolation (lines : List (List Tok)) : Bool :=
  lines.any lineViolation

/-- All identifier tokens occurring in a token-line list. -/
def identsOfLines (lines : List (List Tok)) : List String :=
  (lines.map (fun l => l.filterMap fun t =>
    match t with
    | .ident s => some s
    | _ => none)).flatten

/-- The file `src/run_wasm.js`, token by token (line 2 is blank, line 9 a comment,
lines 8 blank; string quotes are not part of the token). -/
def runWasmLineToks : List (List Tok) :=
  [ -- line 1: const fs = require('fs');
    [.ident "const", .ident "fs", .punct "=", .ident "require",
     .punct "(", .str "fs", .punct ")", .punct ";"],
    -- line 3: (async () => {
    [.punct "(", .ident "async", .punct "(", .punct ")", .punct "=>",
     .punct "\x7b"],
    -- line 4: const [,, wasmPath, argStr] = progress.argv;
    [.ident "const", .punct "[", .punct ",", .punct ",", .ident "wasmPath",
     .punct ",", .ident "argStr", .punct "]", .punct "=",
     .ident "progress", .punct ".", .ident "argv", .punct ";"],
    -- line 5: const byters = fs.readFileSync(wasmPath);
    [.ident "const", .ident "byters", .punct "=", .ident "fs", .punct ".",
     .ident "readFileSync", .punct "(", .ident "wasmPath", .punct ")",
     .punct ";"],
    -- line 6: const { instance } = await WebAssembly.instantiate(bytes, {});
    [.ident "const", .punct "\x7b", .ident "instance", .punct "\x7d",
     .punct "=", .ident "await", .ident "WebAssembly", .punct ".",
     .ident "instantiate", .punct "(", .ident "bytes", .punct ",",
     .punct "\x7b", .punct "\x7d", .punct ")", .punct ";"],
    -- line 7: const arg = argStr ? parseInt(argStr, 10) : undefined;
    [.ident "const", .ident "arg", .punct "=", .ident "argStr",
     .punct "?", .ident "parseInt", .punct "(", .ident "argStr",
     .punct ",", .num 10, .punct ")", .punct ":", .ident "undefined",
     .punct ";"],
    -- line 10: const fn = instance.exports.main || instance.exports.id;
    [.ident "const", .ident "fn", .punct "=", .ident "instance",
     .punct ".", .ident "exports", .punct ".", .ident "main",
     .punct "||", .ident "instance", .punct ".", .ident "exports",
     .punct ".", .ident "id", .punct ";"],
    -- line 11: if (!fn) throw new Error('No exported function named main/id');
    [.ident "if", .punct "(", .punct "!", .ident "fn", .punct ")",
     .ident "throw", .ident "new", .ident "Error", .punct "(",
     .str "No exported function named main/id", .punct ")", .punct ";"],
    -- line 12: const res = (arg !== undefined) ? fn(arg) : fn();
    [.ident "const", .ident "res", .punct "=", .punct "(", .ident "arg",
     .punct "!==", .ident "undefined", .punct ")", .punct "?",
     .ident "fn", .punct "(", .ident "arg", .punct ")", .punct ":",
     .ident "fn", .punct "(", .punct ")", .punct ";"],
    -- line 13: console.log('Result:', res);
    [.ident "console", .punct ".", .ident "log", .punct "(",
     .str "Result:", .punct ",", .ident "res", .punct ")", .punct ";"],
    -- line 14: })();
    [.punct "\x7d", .punct ")", .punct "(", .punct ")", .punct ";"]]

/-- The file `src/unnamed/part_000`, token by token (line 2 is blank). -/
def part000LineToks : List (List Tok) :=
  [ -- line 1: const fs = require('fs');
    [.ident "const", .ident "fs", .punct "=", .ident "require",
     .punct "(", .str "fs", .punct ")", .punct ";"],
    -- line 3: (async () => {
    [.punct "(", .ident "async", .punct "(", .punct ")", .punct "=>",
     .punct "\x7b"],
    -- line 4: const [,, wasPath, ...argStrs] = process.argv;
    [.ident "const", .punct "[", .punct ",", .punct ",", .ident "wasPath",
     .punct ",", .punct "...", .ident "argStrs", .punct "]", .punct "=",
     .ident "process", .punct ".", .ident "argv", .punct ";"],
    -- line 5: const bytes = fs.readFileSync(wasmPath);
    [.ident "const", .ident "bytes", .punct "=", .ident "fs", .punct ".",
     .ident "readFileSync", .punct "(", .ident "wasmPath", .punct ")",
     .punct ";"],
    -- line 6: const { instance } = await WebAssemblyinstantiate(bytes, {});
    [.ident "const", .punct "\x7b", .ident "instance", .punct "\x7d",
     .punct "=", .ident "await", .ident "WebAssemblyinstantiate",
     .punct "(", .ident "bytes", .punct ",", .punct "\x7b", .punct "\x7d",
     .punct ")", .punct ";"],
    -- line 7: coonst fn = instance.exports.main || instance.exports.id
    --          || instance.exports.add;
    [.ident "coonst", .ident "fn", .punct "=", .ident "instance",
     .punct ".", .ident "exports", .punct ".", .ident "main",
     .punct "||", .ident "instance", .punct ".", .ident "exports",
     .punct ".", .ident "id", .punct "||", .ident "instance", .punct ".",
     .ident "exports", .punct ".", .ident "add", .punct ";"],
    -- line 8: if (!fn) throw new Error('No exported function (main/id/add) found');
    [.ident "if", .punct "(", .punct "!", .ident "fn", .punct ")",
     .ident "throw", .ident "new", .ident "Error", .punct "(",
     .str "No exported function (main/id/add) found", .punct ")",
     .punct ";"],
    -- line 9: const args = argStrs.map(n => parseInt(n, 10));
    [.ident "const", .ident "args", .punct "=", .ident "argStrs",
     .punct ".", .ident "map", .punct "(", .ident "n", .punct "=>",
     .ident "parseInt", .punct "(", .ident "n", .punct ",", .num 10,
     .punct ")", .punct ")", .punct ";"],
    -- line 10: const res = fn(...args);
    [.ident "const", .ident "res", .punct "=", .ident "fn", .punct "(",
     .punct "...", .ident "args", .punct ")", .punct ";"],
    -- line 11: console.log('Result:', res);
    [.ident "console", .punct ".", .ident "log", .punct "(",
     .str "Result:", .punct ",", .ident "res", .punct ")", .punct ";"],
    -- line 12: })();
    [.punct "\x7d", .punct ")", .punct "(", .punct ")", .punct ";"]]

/-- Line 7 of `src/unnamed/part_000` on its own: the `coonst fn` line. -/
def part000Line7 : List Tok :=
  [.ident "coonst", .ident "fn", .punct "=", .ident "instance",
   .punct ".", .ident "exports", .punct ".", .ident "main",
   .punct "||", .ident "instance", .punct ".", .ident "exports",
   .punct ".", .ident "id", .punct "||", .ident "instance", .punct ".",
   .ident "exports", .punct ".", .ident "add", .punct ";"]

/-- Names declared by `src/run_wasm.js` itself: `fs` (line 1), the
destructured `wasmPath` and `argStr` (line 4), `byters` (line 5),
`instance` (line 6), `arg` (line 7), `fn` (line 10), `res` (line 12). -/
def runWasmDeclared : List String :=
  ["fs", "wasmPath", "argStr", "byters", "instance", "arg", "fn", "res"]

/-- Names declared by `src/unnamed/part_000` itself: `fs` (line 1),
`wasPath` and `argStrs` (line 4), `bytes` (line 5), `instance` (line 6),
`fn` (the name the mistyped line 7 would bind), `args` (line 9),
`res` (line 10). -/
def part000Declared : List String :=
  ["fs", "wasPath", "argStrs", "bytes", "instance", "fn", "args", "res"]

/-- The names bound in the scope of a Node CommonJS module before the
script's own declarations (the relevant subset of the Node globals). -/
def nodeModuleGlobals : List String :=
  ["process", "console", "require", "module", "exports", "__filename",
   "__dirname", "global", "globalThis", "WebAssembly"]

/-! ## Host capabilities, outcomes and traces -/

/-- The host facilities a run consumes: the command line, the file system
read (`fs.readFileSync`, `none` = throws because missing/unreadable), and
module instantiation (`WebAssembly.instantiate`, `none` = rejects because
the bytes are not a valid module). -/
structure Host where
  argv : List String
  readFile : String → Option Bytes
  instantiate : Bytes → Option Exports

/-- The error values a run can die with. -/
inductive JsError where
  /-- A thrown `ReferenceError` naming the unresolved identifier. -/
  | referenceError : String → JsError
  /-- A `TypeError` from the host (e.g. `readFileSync(undefined)`). -/
  | typeError : String → JsError
  /-- The read `fs.readFileSync` threw for this path (missing/unreadable file). -/
  | loadError : String → JsError
  /-- The awaited `WebAssembly.instantiate` rejected (bytes are not a valid module). -/
  | instantiateError : JsError
  /-- A `throw new Error(<message>)` executed by the script. -/
  | thrown : String → JsError
  /-- The called export raised/trapped across the execution boundary. -/
  | trap : String → JsError
deriving DecidableEq, Repr

/-- How a process run ends. -/
inductive Outcome where
  /-- The script ran to the end and printed this single stdout line;
  the process exits 0. -/
  | printed : String → Outcome
  /-- The file did not parse; nothing executed; non-zero exit. -/
  | parseFail : Outcome
  /-- An uncaught error (the IIFE's promise rejected); non-zero exit. -/
  | uncaught : JsError → Outcome
deriving DecidableEq, Repr

/-- Process exit status for an outcome (Node exits 1 on a syntax error or
an unhandled rejection). -/
def exitCode : Outcome → Nat
  | .printed _ => 0
  | .parseFail => 1
  | .uncaught _ => 1

/-- Externally visible actions a run attempts, in order. -/
inductive Action where
  | read : String → Action
  | instantiated : Action
  | called : List JsNum → Action
  | printedLine : String → Action
deriving DecidableEq, Repr

/-- Arguments of the first call attempted in a trace, if any. -/
def calledArgs : List Action → Option (List JsNum)
  | [] => none
  | .called as :: _ => some as
  | _ :: rest => calledArgs rest

/-- Number of call attempts in a trace. -/
def countCalled (tr : List Action) : Nat :=
  (tr.filter fun a => match a with | .called _ => true | _ => false).length

/-- Number of file-read attempts in a trace. -/
def countRead (tr : List Action) : Nat :=
  (tr.filter fun a => match a with | .read _ => true | _ => false).length

/-- Number of instantiation attempts in a trace. -/
def countInst (tr : List Action) : Nat :=
  (tr.filter fun a => match a with | .instantiated => true | _ => false).length

/-- Number of stdout lines in a trace. -/
def countPrinted (tr : List Action) : Nat :=
  (tr.filter fun a => match a with | .printedLine _ => true | _ => false).length

/-- Prefix a run's trace with an earlier action. -/
def consTrace (a : Action) (r : Outcome × List Action) : Outcome × List Action :=
  (r.1, a :: r.2)

/-! ## The two scripts' semantics -/

/-- Names in scope at line 4 of `src/run_wasm.js`: the Node module globals
plus `fs` from line 1. -/
def runWasmScope : List String := "fs" :: nodeModuleGlobals

/-- Names in scope at line 6 of `src/run_wasm.js`: line 4 bound `wasmPath`
and `argStr`, line 5 bound `byters`. -/
def runWasmScope6 : List String :=
  "byters" :: "argStr" :: "wasmPath" :: runWasmScope

/-- Names in scope at line 5 of `src/unnamed/part_000`: the module globals,
`fs` from line 1, and `wasPath`, `argStrs` from line 4. -/
def part000Scope5 : List String :=
  "argStrs" :: "wasPath" :: "fs" :: nodeModuleGlobals

/-- Names in scope at line 6 of `src/unnamed/part_000`: line 5 bound
`bytes`. -/
def part000Scope6 : List String := "bytes" :: part000Scope5

/-- Lines 7 and 10–13 of `src/run_wasm.js`, from the coerced single
argument onward:
```
const arg = argStr ? parseInt(argStr, 10) : undefined;
const fn = instance.exports.main || instance.exports.id;
if (!fn) throw new Error('No exported function named main/id');
const res = (arg !== undefined) ? fn(arg) : fn();
console.log('Result:', res);
```
-/
def rwEntryRun (e : Exports) (argStr : Option String) : Outcome × List Action :=
  let arg := rwCoerceArg argStr
  match runWasmSelectFn e with
  | none => (.uncaught (.thrown "No exported function named main/id"), [])
  | some fn =>
    let args : List JsNum :=
      match arg with
      | some a => [a]
      | none => []
    match fn args with
    | .trap m => (.uncaught (.trap m), [.called args])
    | .value v =>
      (.printed (resultLine v), [.called args, .printedLine (resultLine v)])

/-- Lines 7–11 of `src/unnamed/part_000`, from export selection onward
(with the mistyped `coonst` read as the `const` it mistypes — the
statement sequence that the syntax error prevents from ever running):
```
coonst fn = instance.exports.main || instance.exports.id || instance.exports.add;
if (!fn) throw new Error('No exported function (main/id/add) found');
const args = argStrs.map(n => parseInt(n, 10));
const res = fn(...args);
console.log('Result:', res);
```
-/
def p0EntryRun (e : Exports) (argStrs : List String) : Outcome × List Action :=
  match p0SelectFn e with
  | none => (.uncaught (.thrown "No exported function (main/id/add) found"), [])
  | some fn =>
    let args := p0CoerceArgs argStrs
    match fn args with
    | .trap m => (.uncaught (.trap m), [.called args])
    | .value v =>
      (.printed (resultLine v), [.called args, .printedLine (resultLine v)])

/-- The async IIFE of `src/run_wasm.js` (lines 3–14).  Line 4 evaluates
`progress.argv`; the identifier `progress` is resolved against the names
in scope, is unbound (the global is `process`), and the reference throws a
`ReferenceError` that rejects the IIFE's promise and crashes the process.
The remaining statements are embedded under the never-satisfied case that
`progress` is bound, reading the argv a process-like binding would
supply. -/
def runWasmBody (h : Host) : Outcome × List Action :=
  -- line 4: const [,, wasmPath, argStr] = progress.argv;
  if runWasmScope.contains "progress" then
    let wasmPath := h.argv.get? 2
    let argStr := h.argv.get? 3
    -- line 5: const byters = fs.readFileSync(wasmPath);
    match wasmPath with
    | none => (.uncaught (.typeError "path is undefined"), [])
    | some p =>
      match h.readFile p with
      | none => (.uncaught (.loadError p), [.read p])
      | some bs =>
        -- line 6: await WebAssembly.instantiate(bytes, {}); — the argument
        -- `bytes` is unbound (line 5 declared `byters`), so evaluating it
        -- throws before any instantiation.  The never-satisfied bound case
        -- continues with the bytes the read produced.
        if runWasmScope6.contains "bytes" then
          match h.instantiate bs with
          | none =>
            (.uncaught .instantiateError, [.read p, .instantiated])
          | some ex =>
            consTrace (.read p) (consTrace .instantiated (rwEntryRun ex argStr))
        else (.uncaught (.referenceError "bytes"), [.read p])
  else (.uncaught (.referenceError "progress"), [])

/-- The script `src/run_wasm.js` as Node runs it: parse the file, then execute the
IIFE. -/
def runWasmFile (h : Host) : Outcome × List Action :=
  if fileViolation runWasmLineToks then (.parseFail, []) else runWasmBody h

/-- The async IIFE of `src/unnamed/part_000` (lines 3–12) as it would
execute had the file parsed.  Line 4 binds `wasPath` and `argStrs`; line 5
passes `wasmPath` to `fs.readFileSync`, and that identifier is unbound, so
the reference throws before any read.  The remaining statements are
embedded under the never-satisfied case that `wasmPath` is bound, reading
the path line 4 actually bound (`wasPath`).  Line 6 calls
`WebAssemblyinstantiate`, also unbound, throwing before any
instantiation. -/
def part000Body (h : Host) : Outcome × List Action :=
  -- line 4: const [,, wasPath, ...argStrs] = process.argv;
  let wasPath := h.argv.get? 2
  let argStrs := h.argv.drop 3
  -- line 5: const bytes = fs.readFileSync(wasmPath);
  if part000Scope5.contains "wasmPath" then
    match wasPath with
    | none => (.uncaught (.typeError "path is undefined"), [])
    | some p =>
      match h.readFile p with
      | none => (.uncaught (.loadError p), [.read p])
      | some bs =>
        -- line 6: await WebAssemblyinstantiate(bytes, {});
        if part000Scope6.contains "WebAssemblyinstantiate" then
          match h.instantiate bs with
          | none =>
            (.uncaught .instantiateError, [.read p, .instantiated])
          | some ex =>
            consTrace (.read p) (consTrace .instantiated (p0EntryRun ex argStrs))
        else (.uncaught (.referenceError "WebAssemblyinstantiate"), [.read p])
  else (.uncaught (.referenceError "wasmPath"), [])

/-- The script `src/unnamed/part_000` as Node runs it: the parse of line 7
(`coonst fn`) fails, so nothing executes. -/
def runPart000 (h : Host) : Outcome × List Action :=
  if fileViolation part000LineToks then (.parseFail, []) else part000Body h

/-- Argument handling of `src/run_wasm.js` starting from the command-line
tokens after the module path: the destructuring
`const [,, wasmPath, argStr] = ...argv` takes at most the first of them
(`argv` is `[node, script, path, t1, t2, ...]`). -/
def rwRunTokens (e : Exports) (ts : List String) : Outcome × List Action :=
  rwEntryRun e (ts.get? 0)

/-! ## Concrete fixtures for witness runs -/

/-- JavaScript `+` restricted to the numbers our model produces. -/
def jsAdd : JsNum → JsNum → JsNum
  | .int a, .int b => .int (a + b)
  | _, _ => .nan

/-- A sample `main` export: returns its first argument (0 when absent). -/
def egMainFn : Callable := fun args => .value (args.headD (.int 0))

/-- A sample `id` export: returns its first argument (1 when absent). -/
def egIdFn : Callable := fun args => .value (args.headD (.int 1))

/-- A sample two-argument adder that traps on an arity mismatch, as the
execution boundary may. -/
def addFn : Callable := fun args =>
  match args with
  | [a, b] => .value (jsAdd a b)
  | _ => .trap "arity mismatch"

/-- An export table exposing both `main` and `id`. -/
def egBoth : Exports := [("main", egMainFn), ("id", egIdFn)]

/-- An export table exposing only `main`. -/
def egMainOnly : Exports := [("main", egMainFn)]

/-- An export table exposing only `add`. -/
def addExports : Exports := [("add", addFn)]

/-- Stand-in contents for a compiled module exporting `add`. -/
def addBytes : Bytes := [0, 97, 115, 109]

/-- A host whose file system has no readable file at any path. -/
def hostMissing : Host :=
  { argv := ["node", "run_wasm.js", "/no/such/file.wasm"]
    readFile := fun _ => none
    instantiate := fun _ => none }

/-- A host holding `mod.bin`, a module exporting `add(a,b) => a+b`, invoked
with the argument tokens `2` and `3`. -/
def hostAdd : Host :=
  { argv := ["node", "script", "mod.bin", "2", "3"]
    readFile := fun p => if p == "mod.bin" then some addBytes else none
    instantiate := fun bs => if bs == addBytes then some addExports else none }

/-- Whether `needle` occurs at the start of `hay`. -/
def startsSeg : List Char → List Char → Bool
  | [], _ => true
  | _ :: _, [] => false
  | a :: as, b :: bs => a == b && startsSeg as bs

/-- Whether `needle` occurs contiguously anywhere in `hay`. -/
def hasSeg (needle : List Char) : List Char → Bool
  | [] => needle.isEmpty
  | c :: rest => startsSeg needle (c :: rest) || hasSeg needle rest

/-- Whether the string `sub` occurs inside `s` (used to state that an
error message lists a candidate name). -/
def mentions (sub s : String) : Bool := hasSeg sub.toList s.toList

/-! ## Helper lemmas -/

/-- Every run of `src/run_wasm.js` ends the same way: the unresolved `progress`
reference on line 4 rejects the IIFE's promise before anything else
happens. -/
theorem runWasmFile_eq (h : Host) :
    runWasmFile h = (.uncaught (.referenceError "progress"), []) := rfl

/-- The file `src/unnamed/part_000` never parses, so every run is the load-time
SyntaxError. -/
theorem runPart000_eq (h : Host) : runPart000 h = (.parseFail, []) := rfl

/-- Even read with `coonst` as `const`, the body of `part_000` dies at
line 5 on the unresolved `wasmPath` before any file read. -/
theorem part000Body_eq (h : Host) :
    part000Body h = (.uncaught (.referenceError "wasmPath"), []) := rfl

/-- Whenever selection succeeded, the `part_000` entry sequence calls the
selected export with exactly the coerced tokens, in order. -/
theorem p0EntryRun_calledArgs {e : Exports} {f : Callable} (ts : List String)
    (hf : p0SelectFn e = some f) :
    calledArgs (p0EntryRun e ts).2 = some (ts.map jsParseInt10) := by
  unfold p0EntryRun
  rw [hf]
  cases hc : f (ts.map jsParseInt10) <;> simp [hc, calledArgs, p0CoerceArgs]

/-- The `part_000` entry sequence performs exactly one call whenever
selection succeeded. -/
theorem p0EntryRun_countCalled {e : Exports} {f : Callable} (ts : List String)
    (hf : p0SelectFn e = some f) :
    countCalled (p0EntryRun e ts).2 = 1 := by
  unfold p0EntryRun
  rw [hf]
  cases hc : f (ts.map jsParseInt10) <;> simp [hc, p0CoerceArgs, countCalled, List.filter]

/-- The `part_000` entry sequence never performs more than one call. -/
theorem p0EntryRun_countCalled_le (e : Exports) (ts : List String) :
    countCalled (p0EntryRun e ts).2 ≤ 1 := by
  unfold p0EntryRun
  cases p0SelectFn e with
  | none => simp [countCalled]
  | some fn => cases hc : fn (ts.map jsParseInt10) <;> simp [hc, p0CoerceArgs, countCalled, List.filter]

/-- The `run_wasm.js` entry sequence never performs more than one call. -/
theorem rwEntryRun_countCalled_le (e : Exports) (a : Option String) :
    countCalled (rwEntryRun e a).2 ≤ 1 := by
  unfold rwEntryRun
  cases runWasmSelectFn e with
  | none => simp [countCalled]
  | some fn =>
    cases rwCoerceArg a with
    | none => cases hc : fn [] <;> simp [hc, countCalled, List.filter]
    | some x => cases hc : fn [x] <;> simp [hc, countCalled, List.filter]

/-- A decimal digit is not any given non-digit character. -/
theorem jsDigit_beq_false {c d : Char} (h : jsDigit c = true)
    (hd : jsDigit d = false) : (c == d) = false := by
  cases hc : c == d with
  | false => rfl
  | true =>
    have hcd : c = d := eq_of_beq hc
    subst hcd
    rw [h] at hd
    exact Bool.noConfusion hd

/-- A decimal digit is not `parseInt` whitespace. -/
theorem jsDigit_not_ws {c : Char} (h : jsDigit c = true) : jsWs c = false := by
  unfold jsWs
  rw [jsDigit_beq_false h (by decide), jsDigit_beq_false h (by decide),
    jsDigit_beq_false h (by decide), jsDigit_beq_false h (by decide)]
  rfl

/-- Taking `takeWhile` over a list made of a block that satisfies the predicate
followed by a non-satisfying head returns exactly the block. -/
theorem takeWhile_block (p : Char → Bool) :
    ∀ (ds rest : List Char), (∀ c ∈ ds, p c = true) →
      (∀ c, rest.head? = some c → p c = false) →
      (ds ++ rest).takeWhile p = ds := by
  intro ds
  induction ds with
  | nil =>
    intro rest _ hr
    cases rest with
    | nil => rfl
    | cons c t => simp [List.takeWhile_cons, hr c rfl]
  | cons d ds ih =>
    intro rest hd hr
    simp only [List.cons_append, List.takeWhile_cons, hd d (by simp)]
    simpa using ih rest (fun c hc => hd c (by simp [hc])) hr

/-- Whenever selection succeeded and the call traps, the `part_000` entry
sequence ends with that trap uncaught. -/
theorem p0EntryRun_trap {e : Exports} {f : Callable} (ts : List String)
    (hf : p0SelectFn e = some f) {m : String}
    (hc : f (ts.map jsParseInt10) = .trap m) :
    (p0EntryRun e ts).1 = .uncaught (.trap m) := by
  unfold p0EntryRun
  rw [hf]
  simp [p0CoerceArgs, hc]

/-- Whenever selection succeeded and the call returns, the `part_000`
entry sequence prints the result line. -/
theorem p0EntryRun_value {e : Exports} {f : Callable} (ts : List String)
    (hf : p0SelectFn e = some f) {v : JsNum}
    (hc : f (ts.map jsParseInt10) = .value v) :
    (p0EntryRun e ts).1 = .printed (resultLine v) := by
  unfold p0EntryRun
  rw [hf]
  simp [p0CoerceArgs, hc]

/-- When no candidate export is found, the `run_wasm.js` entry sequence
throws without calling anything. -/
theorem rwEntryRun_none {e : Exports} (a : Option String)
    (hsel : runWasmSelectFn e = none) :
    rwEntryRun e a = (.uncaught (.thrown "No exported function named main/id"), []) := by
  unfold rwEntryRun
  rw [hsel]

/-- With a selected export, the `run_wasm.js` entry sequence calls it with
the single coerced argument, or with no argument at all. -/
theorem rwEntryRun_calledArgs_some {e : Exports} {fn : Callable} (a : Option String)
    (hsel : runWasmSelectFn e = some fn) :
    calledArgs (rwEntryRun e a).2 =
      some (match rwCoerceArg a with | some x => [x] | none => []) := by
  unfold rwEntryRun
  rw [hsel]
  cases ha : rwCoerceArg a with
  | none => cases hc : fn [] <;> simp [ha, hc, calledArgs]
  | some x => cases hc : fn [x] <;> simp [ha, hc, calledArgs]

/-- Any call the `run_wasm.js` entry sequence makes carries at most one
argument. -/
theorem rwEntryRun_call_len {e : Exports} {a : Option String}
    {as : List JsNum} (h : calledArgs (rwEntryRun e a).2 = some as) :
    as.length ≤ 1 := by
  cases hsel : runWasmSelectFn e with
  | none => rw [rwEntryRun_none a hsel] at h; simp [calledArgs] at h
  | some fn =>
    rw [rwEntryRun_calledArgs_some a hsel] at h
    cases ha : rwCoerceArg a <;> rw [ha] at h <;>
      (injection h with h2; rw [← h2]; simp)

/-- With a selected export and a nonempty first token, the `run_wasm.js`
entry sequence calls it with exactly that one coerced token. -/
theorem rwEntryRun_single_arg {e : Exports} {g : Callable} (t : String)
    (hsel : runWasmSelectFn e = some g) (ht : ¬ t = "") :
    calledArgs (rwEntryRun e (some t)).2 = some [jsParseInt10 t] := by
  rw [rwEntryRun_calledArgs_some (some t) hsel]
  have harg : rwCoerceArg (some t) = some (jsParseInt10 t) := by
    unfold rwCoerceArg
    simp [ht]
  rw [harg]

/-- The coercion `parseInt(·, 10)` on a token that starts with a nonempty run of digits
returns the value of that run, whatever trailing garbage follows. -/
theorem jsParseInt10_digit_block (ds rest : List Char) (h0 : ds ≠ [])
    (hds : ∀ c ∈ ds, jsDigit c = true)
    (hrest : ∀ c, rest.head? = some c → jsDigit c = false) :
    jsParseInt10 (String.mk (ds ++ rest)) = .int (digitsVal ds) := by
  obtain ⟨d, ds', rfl⟩ : ∃ d ds', ds = d :: ds' := by
    cases ds with
    | nil => exact absurd rfl h0
    | cons d t => exact ⟨d, t, rfl⟩
  have hd : jsDigit d = true := hds d (by simp)
  show parseIntCore (((d :: ds') ++ rest).dropWhile jsWs) = .int (digitsVal (d :: ds'))
  rw [List.cons_append, List.dropWhile_cons, jsDigit_not_ws hd]
  simp only [Bool.false_eq_true, if_false]
  unfold parseIntCore
  dsimp only
  rw [jsDigit_beq_false hd (show jsDigit '-' = false by decide),
    jsDigit_beq_false hd (show jsDigit '+' = false by decide)]
  simp only [Bool.false_eq_true, if_false]
  unfold parseUnsigned
  rw [← List.cons_append, takeWhile_block jsDigit (d :: ds') rest hds hrest]

/-! ## Claims -/

/-- C1: in both scripts, the `||` chain over the export table selects the
first present name of the configured preference order (`main, id` for
`run_wasm.js`; `main, id, add` for `part_000`) — the chains coincide with
the spec's ordered first-present lookup — and in particular a module
exposing `main` (for example alongside `id`) has `main` selected. -/
theorem c1_preference_order (e : Exports) :
    runWasmSelectFn e = firstPresent e ["main", "id"] ∧
    p0SelectFn e = firstPresent e ["main", "id", "add"] ∧
    (∀ f, getExport e "main" = some f →
      runWasmSelectFn e = some f ∧ p0SelectFn e = some f) := by
  refine ⟨?_, ?_, ?_⟩
  · cases hm : getExport e "main" with
    | some f => simp [runWasmSelectFn, firstPresent, jsOr, hm]
    | none =>
      cases hi : getExport e "id" with
      | some g => simp [runWasmSelectFn, firstPresent, jsOr, hm, hi]
      | none => simp [runWasmSelectFn, firstPresent, jsOr, hm, hi]
  · cases hm : getExport e "main" with
    | some f => simp [p0SelectFn, firstPresent, jsOr, hm]
    | none =>
      cases hi : getExport e "id" with
      | some g => simp [p0SelectFn, firstPresent, jsOr, hm, hi]
      | none =>
        cases ha : getExport e "add" with
        | some k => simp [p0SelectFn, firstPresent, jsOr, hm, hi, ha]
        | none => simp [p0SelectFn, firstPresent, jsOr, hm, hi, ha]
  · intro f hm
    exact ⟨by simp [runWasmSelectFn, jsOr, hm], by simp [p0SelectFn, jsOr, hm]⟩

/-- Witness for C1 at a module exposing both `main` and `id`. -/
theorem c1_preference_order_witness :
    runWasmSelectFn egBoth = some egMainFn ∧ p0SelectFn egBoth = some egMainFn :=
  (c1_preference_order egBoth).2.2 egMainFn rfl

/-- C4: when a module exposes none of the candidate names, both entry
sequences throw the `new Error` whose message lists the names tried
(`main/id/add` for `part_000`, `main/id` for `run_wasm.js`), and no call
to any export is attempted. -/
theorem c4_no_entry_point (e : Exports) (ts : List String) (a : Option String)
    (hm : getExport e "main" = none) (hi : getExport e "id" = none)
    (ha : getExport e "add" = none) :
    p0EntryRun e ts =
      (.uncaught (.thrown "No exported function (main/id/add) found"), []) ∧
    rwEntryRun e a =
      (.uncaught (.thrown "No exported function named main/id"), []) ∧
    countCalled (p0EntryRun e ts).2 = 0 ∧
    countCalled (rwEntryRun e a).2 = 0 ∧
    mentions "main" "No exported function (main/id/add) found" = true ∧
    mentions "id" "No exported function (main/id/add) found" = true ∧
    mentions "add" "No exported function (main/id/add) found" = true ∧
    mentions "main" "No exported function named main/id" = true ∧
    mentions "id" "No exported function named main/id" = true := by
  have hp0 : p0SelectFn e = none := by simp [p0SelectFn, jsOr, hm, hi, ha]
  have hrw : runWasmSelectFn e = none := by simp [runWasmSelectFn, jsOr, hm, hi]
  have h1 : p0EntryRun e ts =
      (.uncaught (.thrown "No exported function (main/id/add) found"), []) := by
    unfold p0EntryRun
    rw [hp0]
  have h2 := rwEntryRun_none a hrw
  refine ⟨h1, h2, ?_, ?_, by decide, by decide, by decide, by decide, by decide⟩
  · rw [h1]; decide
  · rw [h2]; decide

/-- Witness for C4 at the empty export table. -/
theorem c4_no_entry_point_witness :
    p0EntryRun ([] : Exports) ["1"] =
      (.uncaught (.thrown "No exported function (main/id/add) found"), []) :=
  (c4_no_entry_point [] ["1"] none rfl rfl rfl).1

/-- C2 counterexample: with the two raw argument tokens `2` and `3` and a
module exposing `main`, the `run_wasm.js` argument handling (its
destructuring keeps only one argument slot) calls the export with the
single coerced argument `2`, not with the two coerced arguments — the
argument count is not passed through unchanged. -/
theorem c2_run_wasm_drops_second_arg :
    calledArgs (rwRunTokens egMainOnly ["2", "3"]).2 = some [JsNum.int 2] ∧
    (["2", "3"].map jsParseInt10).length = 2 ∧
    calledArgs (rwRunTokens egMainOnly ["2", "3"]).2 ≠
      some (["2", "3"].map jsParseInt10) := by
  refine ⟨by decide, by decide, by decide⟩

/-- C2 amended: the `part_000` entry sequence calls the selected export
with exactly the N coerced integer arguments in command-line order and
propagates what the call boundary produces (a trap surfaces as the
uncaught failure, a value is printed); `run_wasm.js`, by its
single-slot destructuring, passes at most the first token — exactly one
coerced argument when a nonempty first token exists, never more than
one. -/
theorem c2_amended_argument_passing (e : Exports) (f : Callable)
    (ts : List String) (hf : p0SelectFn e = some f) :
    calledArgs (p0EntryRun e ts).2 = some (ts.map jsParseInt10) ∧
    (ts.map jsParseInt10).length = ts.length ∧
    (∀ m, f (ts.map jsParseInt10) = .trap m →
      (p0EntryRun e ts).1 = .uncaught (.trap m)) ∧
    (∀ v, f (ts.map jsParseInt10) = .value v →
      (p0EntryRun e ts).1 = .printed (resultLine v)) ∧
    (∀ as, calledArgs (rwRunTokens e ts).2 = some as → as.length ≤ 1) ∧
    (∀ g t rest, runWasmSelectFn e = some g → ts = t :: rest → ¬ t = "" →
      calledArgs (rwRunTokens e ts).2 = some [jsParseInt10 t]) := by
  refine ⟨p0EntryRun_calledArgs ts hf, by simp, ?_, ?_, ?_, ?_⟩
  · intro m hm
    exact p0EntryRun_trap ts hf hm
  · intro v hv
    exact p0EntryRun_value ts hf hv
  · intro as h
    exact rwEntryRun_call_len h
  · intro g t rest hsel hts ht
    subst hts
    unfold rwRunTokens
    exact rwEntryRun_single_arg t hsel ht

/-- Witness for C2's amended claim at tokens `2`, `3` with a `main`
export. -/
theorem c2_amended_argument_passing_witness :
    calledArgs (p0EntryRun egMainOnly ["2", "3"]).2 =
      some (["2", "3"].map jsParseInt10) :=
  (c2_amended_argument_passing egMainOnly egMainFn ["2", "3"] rfl).1

/-- C3 counterexample: with the single non-integer token `abc` and a
module exposing `main`, the `part_000` entry sequence does not fail
before invocation: `parseInt` coerces `abc` to `NaN`, the export is
called once with `[NaN]`, and the run even prints a result line — no
`ArgumentParseError` exists anywhere in the code. -/
theorem c3_invalid_token_still_invoked :
    jsParseInt10 "abc" = JsNum.nan ∧
    calledArgs (p0EntryRun egMainOnly ["abc"]).2 = some [JsNum.nan] ∧
    countCalled (p0EntryRun egMainOnly ["abc"]).2 = 1 ∧
    (p0EntryRun egMainOnly ["abc"]).1 = .printed "Result: NaN" := by
  refine ⟨by decide, by decide, by decide, by decide⟩

/-- C3 amended: argument coercion is total and never blocks invocation —
every token is mapped by `parseInt(·, 10)` (a fully non-numeric token to
`NaN`, a numeric-prefixed one such as `3.5` to its prefix value), always
yielding `NaN` or an integer, and the export is invoked exactly once
with exactly those coerced values. -/
theorem c3_amended_coercion_total (e : Exports) (f : Callable)
    (ts : List String) (hf : p0SelectFn e = some f) :
    calledArgs (p0EntryRun e ts).2 = some (ts.map jsParseInt10) ∧
    countCalled (p0EntryRun e ts).2 = 1 ∧
    jsParseInt10 "abc" = JsNum.nan ∧
    jsParseInt10 "3.5" = JsNum.int 3 ∧
    (∀ t, jsParseInt10 t = JsNum.nan ∨ ∃ n : Int, jsParseInt10 t = JsNum.int n) := by
  refine ⟨p0EntryRun_calledArgs ts hf, p0EntryRun_countCalled ts hf,
    by decide, by decide, ?_⟩
  intro t
  cases h : jsParseInt10 t with
  | nan => exact Or.inl rfl
  | int n => exact Or.inr ⟨n, rfl⟩

/-- Witness for C3's amended claim at the token `3.5` with a `main`
export. -/
theorem c3_amended_coercion_total_witness :
    calledArgs (p0EntryRun egMainOnly ["3.5"]).2 =
      some (["3.5"].map jsParseInt10) :=
  (c3_amended_coercion_total egMainOnly egMainFn ["3.5"] rfl).1

/-- C10: `part_000`'s coercion never rejects a token — `parseInt(·, 10)`
maps any token beginning with a nonempty digit run (such as `12abc`) to
that run's value, maps `3.5` to `3` and the fully non-numeric `abc` to
`NaN` — and every coerced value is passed to the export with no validity
check before the call. -/
theorem c10_parseInt_prefix_coercion (e : Exports) (f : Callable)
    (ts : List String) (ds rest : List Char) (hf : p0SelectFn e = some f)
    (h0 : ds ≠ []) (hds : ∀ c ∈ ds, jsDigit c = true)
    (hrest : ∀ c, rest.head? = some c → jsDigit c = false) :
    jsParseInt10 (String.mk (ds ++ rest)) = JsNum.int (digitsVal ds) ∧
    jsParseInt10 "12abc" = JsNum.int 12 ∧
    jsParseInt10 "3.5" = JsNum.int 3 ∧
    jsParseInt10 "abc" = JsNum.nan ∧
    calledArgs (p0EntryRun e ts).2 = some (ts.map jsParseInt10) := by
  exact ⟨jsParseInt10_digit_block ds rest h0 hds hrest, by decide, by decide,
    by decide, p0EntryRun_calledArgs ts hf⟩

/-- Witness for C10 at the digit run `12` followed by `abc`, with the
token list `["7"]` and a `main` export. -/
theorem c10_parseInt_prefix_coercion_witness :
    jsParseInt10 (String.mk (['1', '2'] ++ ['a', 'b', 'c'])) =
      JsNum.int (digitsVal ['1', '2']) :=
  (c10_parseInt_prefix_coercion egMainOnly egMainFn ["7"] ['1', '2']
    ['a', 'b', 'c'] rfl (by decide) (by decide) (by decide)).1

/-- C5 (evaluating the code at the failing input): on a host whose file
system has no readable file at the given path, `run_wasm.js` dies with
the unresolved `progress` reference before even attempting the read, and
`part_000` dies as a load-time SyntaxError — neither surfaces a
missing-file load error; both exit non-zero with an empty action
trace. -/
theorem c5_missing_file_actual :
    hostMissing.readFile "/no/such/file.wasm" = none ∧
    hostMissing.argv.get? 2 = some "/no/such/file.wasm" ∧
    runWasmFile hostMissing = (.uncaught (.referenceError "progress"), []) ∧
    runPart000 hostMissing = (.parseFail, []) ∧
    countRead (runWasmFile hostMissing).2 = 0 ∧
    countRead (runPart000 hostMissing).2 = 0 ∧
    exitCode (runWasmFile hostMissing).1 ≠ 0 ∧
    exitCode (runPart000 hostMissing).1 ≠ 0 := by
  refine ⟨rfl, rfl, rfl, rfl, by decide, by decide, by decide, by decide⟩

/-- C6 (evaluating the code at the spec's scenario): the statement
sequence that `part_000`'s entry point spells out would print exactly
`Result: 5` for a module exporting `add(a,b) => a+b` and the tokens `2`
and `3`; but as shipped, neither script reaches it — `run_wasm.js`
crashes on `progress` and `part_000` does not parse — so nothing is ever
printed and no run exits 0. -/
theorem c6_result_line_actual :
    (p0EntryRun addExports ["2", "3"]).1 = .printed "Result: 5" ∧
    resultLine (.int 5) = "Result: 5" ∧
    runWasmFile hostAdd = (.uncaught (.referenceError "progress"), []) ∧
    runPart000 hostAdd = (.parseFail, []) ∧
    countPrinted (runWasmFile hostAdd).2 = 0 ∧
    countPrinted (runPart000 hostAdd).2 = 0 ∧
    exitCode (runWasmFile hostAdd).1 ≠ 0 ∧
    exitCode (runPart000 hostAdd).1 ≠ 0 := by
  refine ⟨by decide, by decide, rfl, rfl, by decide, by decide, by decide, by decide⟩

/-- C7: a run is a deterministic function of the module bytes the host
serves, the instantiation behaviour and the argument strings — two runs
over hosts agreeing on those inputs produce identical outcomes and
traces — and no step is ever retried within a run: each run attempts at
most one read, one instantiation and one call, in either script and in
either entry sequence. -/
theorem c7_deterministic_one_shot (h1 h2 : Host) (ha : h1.argv = h2.argv)
    (hr : h1.readFile = h2.readFile) (hi : h1.instantiate = h2.instantiate) :
    runWasmFile h1 = runWasmFile h2 ∧
    runPart000 h1 = runPart000 h2 ∧
    countCalled (runWasmFile h1).2 ≤ 1 ∧
    countRead (runWasmFile h1).2 ≤ 1 ∧
    countInst (runWasmFile h1).2 ≤ 1 ∧
    countCalled (runPart000 h1).2 ≤ 1 ∧
    countRead (runPart000 h1).2 ≤ 1 ∧
    countInst (runPart000 h1).2 ≤ 1 ∧
    (∀ e ts, countCalled (p0EntryRun e ts).2 ≤ 1) ∧
    (∀ e a, countCalled (rwEntryRun e a).2 ≤ 1) := by
  obtain ⟨a1, r1, i1⟩ := h1
  obtain ⟨a2, r2, i2⟩ := h2
  simp only at ha hr hi
  subst ha; subst hr; subst hi
  refine ⟨rfl, rfl, ?_, ?_, ?_, ?_, ?_, ?_,
    p0EntryRun_countCalled_le, rwEntryRun_countCalled_le⟩ <;>
    first
      | (rw [runWasmFile_eq]; decide)
      | (rw [runPart000_eq]; decide)

/-- Witness for C7 at two (equal) concrete hosts. -/
theorem c7_deterministic_one_shot_witness :
    countCalled (runPart000 hostAdd).2 ≤ 1 :=
  (c7_deterministic_one_shot hostAdd hostAdd rfl rfl rfl).2.2.2.2.2.1

/-- C8: on every command line, `run_wasm.js` dies with an uncaught
`ReferenceError` on `progress` — an identifier it references (as is
`bytes`) but that neither its own declarations nor the Node globals
bind — before any file read, instantiation, call or print, and the
process never exits 0. -/
theorem c8_run_wasm_reference_error (h : Host) :
    runWasmFile h = (.uncaught (.referenceError "progress"), []) ∧
    exitCode (runWasmFile h).1 ≠ 0 ∧
    countRead (runWasmFile h).2 = 0 ∧
    countInst (runWasmFile h).2 = 0 ∧
    countCalled (runWasmFile h).2 = 0 ∧
    countPrinted (runWasmFile h).2 = 0 ∧
    "progress" ∈ identsOfLines runWasmLineToks ∧
    "progress" ∉ runWasmDeclared ∧ "progress" ∉ nodeModuleGlobals ∧
    "bytes" ∈ identsOfLines runWasmLineToks ∧
    "bytes" ∉ runWasmDeclared ∧ "bytes" ∉ nodeModuleGlobals := by
  refine ⟨runWasmFile_eq h, ?_, ?_, ?_, ?_, ?_,
    by decide, by decide, by decide, by decide, by decide, by decide⟩ <;>
    (rw [runWasmFile_eq]; decide)

/-- Witness for C8 at a concrete host. -/
theorem c8_run_wasm_reference_error_witness :
    runWasmFile hostAdd = (.uncaught (.referenceError "progress"), []) :=
  (c8_run_wasm_reference_error hostAdd).1

/-- C9: `part_000` can never execute — the adjacent identifiers
`coonst fn` on its line 7 (with `coonst` not a keyword) make the file a
SyntaxError, so every run ends as the load failure with an empty trace,
non-zero exit, no instantiation, no call and no output; moreover its
body references `wasmPath` and `WebAssemblyinstantiate`, names neither
declared in the file nor bound by Node, so even parsed it would die at
line 5 with a `ReferenceError` before any read. -/
theorem c9_part000_never_parses (h : Host) :
    lineViolation part000Line7 = true ∧
    jsHeadKeywords.contains "coonst" = false ∧
    fileViolation part000LineToks = true ∧
    runPart000 h = (.parseFail, []) ∧
    exitCode (runPart000 h).1 ≠ 0 ∧
    countRead (runPart000 h).2 = 0 ∧
    countInst (runPart000 h).2 = 0 ∧
    countCalled (runPart000 h).2 = 0 ∧
    countPrinted (runPart000 h).2 = 0 ∧
    "wasmPath" ∈ identsOfLines part000LineToks ∧
    "wasmPath" ∉ part000Declared ∧ "wasmPath" ∉ nodeModuleGlobals ∧
    "WebAssemblyinstantiate" ∈ identsOfLines part000LineToks ∧
    "WebAssemblyinstantiate" ∉ part000Declared ∧
    "WebAssemblyinstantiate" ∉ nodeModuleGlobals ∧
    part000Body h = (.uncaught (.referenceError "wasmPath"), []) := by
  refine ⟨by decide, by decide, by decide, runPart000_eq h, ?_, ?_, ?_, ?_, ?_,
    by decide, by decide, by decide, by decide, by decide, by decide,
    part000Body_eq h⟩ <;>
    (rw [runPart000_eq]; decide)

/-- Witness for C9 at a concrete host. -/
theorem c9_part000_never_parses_witness :
    runPart000 hostAdd = (.parseFail, []) :=
  (c9_part000_never_parses hostAdd).2.2.2.1

end ParadimeInvoker
